import Mathlib

/-!
# Windows toast-notification bridge: `DesktopNotification` and `DesktopNotificationsManager`

A shallow embedding of

* `src/vendor/desktop-notifications/src/win/DesktopNotification.{h,cpp}`
* `src/vendor/desktop-notifications/src/win/DesktopNotificationsManager.cpp`

Conventions of the embedding.

* `std::string` and `std::wstring` are both `String`.  Where the program itself reads a string
  back through a NUL-terminated pointer (`WindowsGetStringRawBuffer` at
  DesktopNotification.cpp:210, `userInfo.c_str()` at DesktopNotificationsManager.cpp:317) the
  value is cut at the first NUL (`c_str`).  An `OSCall` records the program's string as the
  argument it is built from.
* `HRESULT` is `Int`; `SUCCEEDED hr` is `0 ≤ hr`.
* The operating system is an external collaborator.  Every COM / WinRT call made on an object
  the program obtained from the OS is one `OSCall`; the OS answers it with a `Reply` that may
  depend on the whole history of calls made before (`OS.reply`).  The calls made so far are
  recorded, oldest first, in `World.trace`.
* The lines written by the `DN_LOG_ERROR` statements of the source are recorded, oldest first,
  in `World.log` (diagnostics that the checking macros may print on their own are not).
* The thread-safe host callback `m_callback` is the list of calls handed to the host, oldest
  first.
* OS objects that are *passed in* by the OS (the `sender` toast and the event args of the event
  sinks) are records of the answers their methods give.
* The manager is modelled after a successful construction (`m_toastManager` is a live factory).
-/

namespace DesktopNotifications

/-! ## Result codes -/

/-- The COM status code. -/
abbrev HRESULT := Int

/-- The success code `S_OK`. -/
def S_OK : HRESULT := 0

/-- The Windows macro `SUCCEEDED(hr)`: the code is non-negative. -/
def SUCCEEDED (hr : HRESULT) : Bool := decide (0 ≤ hr)

/-- Modelled from the spec: the macro `DN_CHECK_RESULT` of `Utils.h`, which is not under `src/`.
The spec's error taxonomy says an OS/COM call failure is "surfaced as the OS status code to the
immediate caller, logged with context, not retried", so the check is true exactly on a code that
is not a failure. -/
def DN_CHECK_RESULT (hr : HRESULT) : Bool := SUCCEEDED hr

/-- Modelled from the spec: the macro `DN_RETURN_ON_ERROR(e)` of `Utils.h`, which is not under
`src/`.  Following the spec ("OS/COM call failures — surfaced as the OS status code to the
immediate caller") it evaluates `e` once and, when `DN_CHECK_RESULT` of the code is false,
returns that code from the enclosing function.  The definition says whether it returns; the
functions below read `if DN_RETURN_ON_ERROR hr then (hr, ..) else ..`. -/
def DN_RETURN_ON_ERROR (hr : HRESULT) : Bool := !DN_CHECK_RESULT hr

/-! ## Windows SDK enumerations

Both are plain C enumerations, so a variable of the type can hold any integer. -/

/-- The enumeration `ABI::Windows::UI::Notifications::NotificationSetting`. -/
abbrev NotificationSetting := Int

def NotificationSetting_Enabled : NotificationSetting := 0
def NotificationSetting_DisabledForApplication : NotificationSetting := 1
def NotificationSetting_DisabledForUser : NotificationSetting := 2
def NotificationSetting_DisabledByGroupPolicy : NotificationSetting := 3
def NotificationSetting_DisabledByManifest : NotificationSetting := 4

/-- The enumeration `ABI::Windows::UI::Notifications::ToastDismissalReason`. -/
abbrev ToastDismissalReason := Int

def ToastDismissalReason_UserCanceled : ToastDismissalReason := 0
def ToastDismissalReason_ApplicationHidden : ToastDismissalReason := 1
def ToastDismissalReason_TimedOut : ToastDismissalReason := 2

/-! ## The parts of `Utils.h` the two files use -/

/-- The declarations of `Utils.h` (not under `src/`) that the embedded functions call: the
launch-argument codec and the group name.  They are parameters of the embedding. -/
structure Utils where
  /-- The function `Utils::formatLaunchArgs(id, userInfo)`. -/
  formatLaunchArgs : String → String → String
  /-- The function `Utils::parseNotificationID(launchArgs)`. -/
  parseNotificationID : String → String
  /-- The function `Utils::parseUserInfo(launchArgs)`. -/
  parseUserInfo : String → String
  /-- The constant `DN_GROUP_NAME`. -/
  DN_GROUP_NAME : String

/-! ## The operating system -/

/-- One call into the OS, with the arguments that come from program data. -/
inductive OSCall where
  | GetTemplateContent
  | GetElementsByTagName (tag : String)
  | Item (index : Nat)
  | get_Attributes
  | CreateAttribute (name : String)
  | As_IXmlNode
  | SetNamedItem
  | CreateTextNode (text : String)
  | AppendChild
  | CreateToastNotifierWithId (appID : String)
  | GetActivationFactory_ToastNotification
  | CreateToastNotification
  | As_IToastNotification2
  | put_Tag (tag : String)
  | put_Group (group : String)
  | get_Setting
  | Show
  | As_IToastNotificationManagerStatics2
  | get_History
  | RemoveGroupedTagWithId (tag : String) (group : String) (appID : String)
  deriving DecidableEq, Repr

/-- What the OS gives back for one call: the status code and what it stored through the
out-parameter (`none`: it stored nothing, so a pointer stays null and an enumeration variable
keeps its initial value). -/
structure Reply where
  hr : HRESULT
  out : Option Int
  deriving DecidableEq, Repr

/-- The OS: its answer to a call given the calls made before, and the command line of the
process (`GetCommandLineW`). -/
structure OS where
  reply : List OSCall → OSCall → Reply
  commandLine : String

/-- The observable effects so far: OS calls and `DN_LOG_ERROR` lines, oldest first. -/
structure World where
  trace : List OSCall
  log : List String
  deriving DecidableEq, Repr

/-- Perform one OS call: ask the OS, record the call. -/
def World.call (os : OS) (w : World) (c : OSCall) : Reply × World :=
  (os.reply w.trace c, { w with trace := w.trace ++ [c] })

/-- The statement `DN_LOG_ERROR(line)`. -/
def DN_LOG_ERROR (w : World) (line : String) : World :=
  { w with log := w.log ++ [line] }

/-! ## `DesktopNotification` -/

/-- The class `DesktopNotification` (DesktopNotification.h): the five strings given to the
constructor and the three OS handles (null until `createToast` fills them). -/
structure DesktopNotification where
  m_appID : String
  m_title : String
  m_body : String
  m_userInfo : String
  m_id : String
  m_toastXml : Option Int
  m_notifier : Option Int
  m_notification : Option Int
  deriving DecidableEq, Repr

/-- The constructor `DesktopNotification(id, appID, title, body, userInfo)`. -/
def DesktopNotification.new (id appID title body userInfo : String) : DesktopNotification :=
  { m_appID := appID, m_title := title, m_body := body, m_userInfo := userInfo, m_id := id,
    m_toastXml := none, m_notifier := none, m_notification := none }

/-- The accessor `getID()`. -/
def DesktopNotification.getID (d : DesktopNotification) : String := d.m_id

/-- What a read through the NUL-terminated pointer `s.c_str()` sees: the characters of `s`
before its first NUL. -/
def c_str (s : String) : String :=
  String.mk (s.data.takeWhile (fun c => c != Char.ofNat 0))

/-- An `HSTRING` handed out by the OS, as the string it holds; the null handle is the empty
string, and no other handle holds the empty string. -/
abbrev HSTRING := String

/-! ### Showing a toast -/

/-- The constant `kLaunchAttribute`. -/
def kLaunchAttribute : String := "launch"

/-- The method `setNodeValueString` (DesktopNotification.cpp:59-69). -/
def setNodeValueString (os : OS) (w : World) (inputString : String) : HRESULT × World :=
  let (r, w) := w.call os (OSCall.CreateTextNode inputString)
  if DN_RETURN_ON_ERROR r.hr then (r.hr, w) else
  let (r, w) := w.call os OSCall.As_IXmlNode
  if DN_RETURN_ON_ERROR r.hr then (r.hr, w) else
  let (r, w) := w.call os OSCall.AppendChild
  (r.hr, w)

/-- The three-argument method `addAttribute` (DesktopNotification.cpp:90-103). -/
def addAttribute (os : OS) (w : World) (name : String) (value : String) : HRESULT × World :=
  let (r, w) := w.call os (OSCall.CreateAttribute name)
  if DN_RETURN_ON_ERROR r.hr then (r.hr, w) else
  let (r, w) := w.call os OSCall.As_IXmlNode
  if DN_RETURN_ON_ERROR r.hr then (r.hr, w) else
  let (r, w) := w.call os OSCall.SetNamedItem
  if DN_RETURN_ON_ERROR r.hr then (r.hr, w) else
  setNodeValueString os w value

/-- The method `setTextValues` (DesktopNotification.cpp:32-44). -/
def setTextValues (os : OS) (d : DesktopNotification) (w : World) : HRESULT × World :=
  let (r, w) := w.call os (OSCall.GetElementsByTagName "text")
  if DN_RETURN_ON_ERROR r.hr then (r.hr, w) else
  let (r, w) := w.call os (OSCall.Item 0)
  if DN_RETURN_ON_ERROR r.hr then (r.hr, w) else
  let (hr, w) := setNodeValueString os w d.m_title
  if DN_RETURN_ON_ERROR hr then (hr, w) else
  let (r, w) := w.call os (OSCall.Item 1)
  if DN_RETURN_ON_ERROR r.hr then (r.hr, w) else
  setNodeValueString os w d.m_body

/-- The method `startListeningEvents` (DesktopNotification.cpp:46-57): the registrations are
commented out in the source, it only returns `S_OK`. -/
def startListeningEvents : HRESULT := S_OK

/-- The first part of `createToast` (DesktopNotification.cpp:120-151), up to and including the
tag and group: `some hr` when a `DN_RETURN_ON_ERROR` left the function with `hr`, `none` when
control reaches line 153. -/
def createToastSetup (os : OS) (U : Utils) (d : DesktopNotification) (w : World) :
    Option HRESULT × DesktopNotification × World :=
  let (r, w) := w.call os OSCall.GetTemplateContent
  let d := { d with m_toastXml := r.out }
  if DN_RETURN_ON_ERROR r.hr then (some r.hr, d, w) else
  let (r, w) := w.call os (OSCall.GetElementsByTagName "toast")
  if DN_RETURN_ON_ERROR r.hr then (some r.hr, d, w) else
  let (r, w) := w.call os (OSCall.Item 0)
  if DN_RETURN_ON_ERROR r.hr then (some r.hr, d, w) else
  let (r, w) := w.call os OSCall.get_Attributes
  if DN_RETURN_ON_ERROR r.hr then (some r.hr, d, w) else
  let data := U.formatLaunchArgs d.m_id d.m_userInfo
  let (hr, w) := addAttribute os w kLaunchAttribute data
  if DN_RETURN_ON_ERROR hr then (some hr, d, w) else
  let (hr, w) := setTextValues os d w
  if DN_RETURN_ON_ERROR hr then (some hr, d, w) else
  let (r, w) := w.call os (OSCall.CreateToastNotifierWithId d.m_appID)
  let d := { d with m_notifier := r.out }
  if DN_RETURN_ON_ERROR r.hr then (some r.hr, d, w) else
  let (r, w) := w.call os OSCall.GetActivationFactory_ToastNotification
  if DN_RETURN_ON_ERROR r.hr then (some r.hr, d, w) else
  let (r, w) := w.call os OSCall.CreateToastNotification
  let d := { d with m_notification := r.out }
  if DN_RETURN_ON_ERROR r.hr then (some r.hr, d, w) else
  let (r, w) := w.call os OSCall.As_IToastNotification2
  if SUCCEEDED r.hr then
    let (r, w) := w.call os (OSCall.put_Tag d.m_id)
    if DN_RETURN_ON_ERROR r.hr then (some r.hr, d, w) else
    let (r, w) := w.call os (OSCall.put_Group U.DN_GROUP_NAME)
    if DN_RETURN_ON_ERROR r.hr then (some r.hr, d, w) else
    (none, d, w)
  else
    (none, d, w)

/-- The text logged at DesktopNotification.cpp:179-183 for a disabled setting. -/
def disabledMessage (os : OS) (error : String) : String :=
  "Notifications are disabled\n" ++ "Reason: " ++ error
    ++ " Please make sure that the app id is set correctly.\n"
    ++ "Command Line: " ++ os.commandLine

/-- The method `createToast` (DesktopNotification.cpp:117-186): `createToastSetup` is lines
120-151, the body below is lines 153-185.  The result is the returned code, the notification
object with the handles the OS stored, and the effects. -/
def createToast (os : OS) (U : Utils) (d : DesktopNotification) (w : World) :
    HRESULT × DesktopNotification × World :=
  match createToastSetup os U d w with
  | (some hr, d, w) => (hr, d, w)
  | (none, d, w) =>
    let error : String := ""
    let setting : NotificationSetting := NotificationSetting_Enabled
    let (r, w) := w.call os OSCall.get_Setting
    let setting := r.out.getD setting
    let w :=
      if !DN_CHECK_RESULT r.hr then
        DN_LOG_ERROR w "Failed to retreive NotificationSettings ensure your appId is registered"
      else w
    -- the switch: an early return of `DN_RETURN_ON_ERROR`, and the value of `error` after it
    let (ret, error) : Option HRESULT × String :=
      if setting = NotificationSetting_Enabled then
        let hr := startListeningEvents
        if DN_RETURN_ON_ERROR hr then (some hr, error) else (none, error)
      else if setting = NotificationSetting_DisabledForApplication then
        (none, "DisabledForApplication")
      else if setting = NotificationSetting_DisabledForUser then
        (none, "DisabledForUser")
      else if setting = NotificationSetting_DisabledByGroupPolicy then
        (none, "DisabledByGroupPolicy")
      else if setting = NotificationSetting_DisabledByManifest then
        (none, "DisabledByManifest")
      else
        (none, error)
    match ret with
    | some hr => (hr, d, w)
    | none =>
      let w := if !error.isEmpty then DN_LOG_ERROR w (disabledMessage os error) else w
      let (r, w) := w.call os OSCall.Show
      (r.hr, d, w)

/-- The five strings of `d2` are those of `d`. -/
def keepsStrings (d d2 : DesktopNotification) : Prop :=
  d2.m_id = d.m_id ∧ d2.m_appID = d.m_appID ∧ d2.m_title = d.m_title ∧
  d2.m_body = d.m_body ∧ d2.m_userInfo = d.m_userInfo

/-! ### Reading the launch arguments back from a toast the OS hands in -/

/-- An `IXmlElement` handed in by the OS: `GetAttribute(name, &value)` gives the `HSTRING`
stored in `value` (the null handle, that is the empty string, for an attribute that is absent
or empty). -/
structure IXmlElement where
  GetAttribute : String → HSTRING

/-- An `IXmlDocument` handed in by the OS, with its document element. -/
structure IXmlDocument where
  get_DocumentElement : IXmlElement

/-- An `IToastNotification` handed in by the OS: `get_Content(&xmlDoc)` gives the document
stored in `xmlDoc`, `none` when the pointer stays null. -/
structure IToastNotification where
  get_Content : Option IXmlDocument

/-- The static method `getLaunchArgsFromToast` (DesktopNotification.cpp:188-211). -/
def getLaunchArgsFromToast (toast : IToastNotification) (w : World) : String × World :=
  match toast.get_Content with
  | none => ("", DN_LOG_ERROR w "Could not get xml document from toast")
  | some xmlDoc =>
    let launchArgs : HSTRING := xmlDoc.get_DocumentElement.GetAttribute kLaunchAttribute
    -- `launchArgs == nullptr`: the handle is null exactly when the string is empty
    if launchArgs = "" then
      ("", DN_LOG_ERROR w "Could not get launch attribute from toast")
    else
      -- the `std::wstring` is built from the raw buffer read as a NUL-terminated string
      (c_str launchArgs, w)

/-- The static method `getNotificationIDFromToast` (DesktopNotification.cpp:213-223). -/
def getNotificationIDFromToast (U : Utils) (toast : IToastNotification) (w : World) :
    String × World :=
  let (launchArgs, w) := getLaunchArgsFromToast toast w
  if launchArgs = "" then
    ("", DN_LOG_ERROR w "Could not get launch arguments from toast")
  else
    (U.parseNotificationID launchArgs, w)

/-- The static method `getUserInfoFromToast` (DesktopNotification.cpp:225-235). -/
def getUserInfoFromToast (U : Utils) (toast : IToastNotification) (w : World) :
    String × World :=
  let (launchArgs, w) := getLaunchArgsFromToast toast w
  if launchArgs = "" then
    ("", DN_LOG_ERROR w "Could not get launch arguments from toast")
  else
    (U.parseUserInfo launchArgs, w)

/-! ## The host callback -/

/-- The third argument of the host callback: `env.Undefined()`, or the value `Utils::JSONParse`
returns for a JS string.  `Utils::JSONParse` is not under `src/`: its value is kept symbolic,
named by the text it is given, and it is taken to return one for every text. -/
inductive JSValue where
  | undefined
  | JSONParse (text : String)
  deriving DecidableEq, Repr

/-- One call of the host callback: `jsCallback.Call({eventName, notificationID, userInfoObject})`. -/
structure JSCall where
  eventName : String
  notificationID : String
  userInfoObject : JSValue
  deriving DecidableEq, Repr

/-! ## `DesktopNotificationsManager` -/

/-- The class `DesktopNotificationsManager`: application id, the registry of tracked
notifications in vector order, the calls handed to the host callback, and the effects so far. -/
structure DesktopNotificationsManager where
  m_toastActivatorClsid : String
  m_appID : String
  m_desktopNotifications : List DesktopNotification
  m_callback : List JSCall
  world : World
  deriving DecidableEq, Repr

/-- The method `getHistory` (DesktopNotificationsManager.cpp:177-187): the history pointer,
null when the cast of the toast manager fails or the OS stores nothing. -/
def getHistory (os : OS) (w : World) : Option Int × World :=
  let (r, w) := w.call os OSCall.As_IToastNotificationManagerStatics2
  if DN_CHECK_RESULT r.hr then
    let (r, w) := w.call os OSCall.get_History
    (r.out, w)
  else
    (none, w)

/-- The method `closeNotification` (DesktopNotificationsManager.cpp:223-237). -/
def closeNotification (os : OS) (U : Utils) (m : DesktopNotificationsManager)
    (d : DesktopNotification) : Bool × DesktopNotificationsManager :=
  let (history, w) := getHistory os m.world
  let notFound (w : World) : Bool × DesktopNotificationsManager :=
    (false, { m with world := DN_LOG_ERROR w ("Notification " ++ d.getID ++ " does not exist") })
  match history with
  | some _ =>
    let (r, w) := w.call os (OSCall.RemoveGroupedTagWithId d.getID U.DN_GROUP_NAME m.m_appID)
    if DN_CHECK_RESULT r.hr then (true, { m with world := w }) else notFound w
  | none => notFound w

/-- The loop of `closeToast`: `rest` is what the iterator `it` has still to visit and `i` is the
position of `it` in `m_desktopNotifications`. -/
def closeToastLoop (os : OS) (U : Utils) (m : DesktopNotificationsManager) (id : String) :
    List DesktopNotification → Nat → Bool × DesktopNotificationsManager
  | [], _ => (false, m)
  | notification :: rest, i =>
    if notification.getID = id then
      closeNotification os U
        { m with m_desktopNotifications := m.m_desktopNotifications.eraseIdx i } notification
    else
      closeToastLoop os U m id rest (i + 1)

/-- The method `closeToast` (DesktopNotificationsManager.cpp:199-214). -/
def closeToast (os : OS) (U : Utils) (m : DesktopNotificationsManager) (id : String) :
    Bool × DesktopNotificationsManager :=
  closeToastLoop os U m id m.m_desktopNotifications 0

/-- The method `getCurrentPermission` (DesktopNotificationsManager.cpp:157-175). -/
def getCurrentPermission (os : OS) (m : DesktopNotificationsManager) :
    String × DesktopNotificationsManager :=
  let (r, w) := m.world.call os (OSCall.CreateToastNotifierWithId m.m_appID)
  if !DN_CHECK_RESULT r.hr then
    let w := DN_LOG_ERROR w "Failed to create a ToastNotifier to ensure your appId is registered"
    ("default", { m with world := w })
  else
    let setting : NotificationSetting := NotificationSetting_Enabled
    let (r, w) := w.call os OSCall.get_Setting
    let setting := r.out.getD setting
    if !DN_CHECK_RESULT r.hr then
      let w :=
        DN_LOG_ERROR w "Failed to retreive NotificationSettings to ensure your appId is registered"
      ("default", { m with world := w })
    else
      (if setting = NotificationSetting_Enabled then "granted" else "denied",
        { m with world := w })

/-- The method `displayToast` (DesktopNotificationsManager.cpp:189-197).  The vector holds a
shared pointer to `d`, so what `createToast` stores in `d` after the `push_back` is seen
through the last slot of the vector: that slot is written back with the object as
`createToast` left it. -/
def displayToast (os : OS) (U : Utils) (m : DesktopNotificationsManager)
    (id title body userInfo : String) : HRESULT × DesktopNotificationsManager :=
  let d := DesktopNotification.new id m.m_appID title body userInfo
  let m := { m with m_desktopNotifications := m.m_desktopNotifications ++ [d] }
  let (hr, d, w) := createToast os U d m.world
  (hr, { m with m_desktopNotifications := m.m_desktopNotifications.dropLast ++ [d], world := w })

/-- The value `userInfoObject` the closure of `invokeJSCallback` builds
(DesktopNotificationsManager.cpp:314-319): `undefined`, or, when the user-info is not empty,
what `Utils::JSONParse` gives for the JS string made from `userInfo.c_str()`, that is from the
user-info up to its first NUL. -/
def userInfoObject (userInfo : String) : JSValue :=
  if userInfo ≠ "" then JSValue.JSONParse (c_str userInfo) else JSValue.undefined

/-- The method `invokeJSCallback` (DesktopNotificationsManager.cpp:308-328): the closure given
to `m_callback.BlockingCall` calls the host callback with the event name, the id, and
`undefined` or the parsed user-info. -/
def invokeJSCallback (m : DesktopNotificationsManager) (eventName notificationID userInfo : String) :
    DesktopNotificationsManager :=
  { m with
    m_callback := m.m_callback ++ [JSCall.mk eventName notificationID (userInfoObject userInfo)] }

/-- The `IInspectable` args of an activation: `QueryInterface(&buttonReply)` gives the pointer
stored in `buttonReply`, `none` when it stays null. -/
structure IInspectable where
  QueryInterface_IToastActivatedEventArgs : Option Int

/-- The args of a dismissal: `get_Reason(&tdr)` gives the code and the value of `tdr` after
the call. -/
structure IToastDismissedEventArgs where
  get_Reason : HRESULT × ToastDismissalReason

/-- The args of a failure; the sink does not look at them. -/
structure IToastFailedEventArgs where
  get_ErrorCode : HRESULT

/-- The overload `Invoke(IToastNotification*, IInspectable*)`
(DesktopNotificationsManager.cpp:239-256). -/
def DesktopToastActivatedEventHandler.Invoke (U : Utils) (m : DesktopNotificationsManager)
    (sender : IToastNotification) (args : IInspectable) : HRESULT × DesktopNotificationsManager :=
  match args.QueryInterface_IToastActivatedEventArgs with
  | none =>
    (S_OK, { m with world := DN_LOG_ERROR m.world "args is not a IToastActivatedEventArgs" })
  | some _ =>
    let (notificationID, w) := getNotificationIDFromToast U sender m.world
    let (userInfo, w) := getUserInfoFromToast U sender w
    (S_OK, invokeJSCallback { m with world := w } "click" notificationID userInfo)

/-- The overload `Invoke(IToastNotification*, IToastDismissedEventArgs*)`
(DesktopNotificationsManager.cpp:258-289). -/
def DesktopToastDismissedEventHandler.Invoke (U : Utils) (m : DesktopNotificationsManager)
    (sender : IToastNotification) (e : IToastDismissedEventArgs) :
    HRESULT × DesktopNotificationsManager :=
  let (notificationID, w) := getNotificationIDFromToast U sender m.world
  if notificationID = "" then
    (S_OK, { m with world := DN_LOG_ERROR w "Could not get notification ID from toast" })
  else
    let (userInfo, w) := getUserInfoFromToast U sender w
    let m := { m with world := w }
    let (hr, tdr) := e.get_Reason
    if SUCCEEDED hr then
      if tdr = ToastDismissalReason_ApplicationHidden then
        (S_OK, invokeJSCallback m "hidden" notificationID userInfo)
      else if tdr = ToastDismissalReason_UserCanceled then
        (S_OK, invokeJSCallback m "dismissed" notificationID userInfo)
      else if tdr = ToastDismissalReason_TimedOut then
        (S_OK, invokeJSCallback m "timedout" notificationID userInfo)
      else
        (S_OK, m)
    else
      (S_OK, m)

/-- The overload `Invoke(IToastNotification*, IToastFailedEventArgs*)`
(DesktopNotificationsManager.cpp:291-306). -/
def DesktopToastFailedEventHandler.Invoke (U : Utils) (m : DesktopNotificationsManager)
    (sender : IToastNotification) (_e : IToastFailedEventArgs) :
    HRESULT × DesktopNotificationsManager :=
  let (notificationID, w) := getNotificationIDFromToast U sender m.world
  if notificationID = "" then
    (S_OK, { m with world := DN_LOG_ERROR w "Could not get notification ID from toast" })
  else
    let (userInfo, w) := getUserInfoFromToast U sender w
    let m := { m with world := DN_LOG_ERROR w "The toast encountered an error." }
    (S_OK, invokeJSCallback m "error" notificationID userInfo)

/-! ## The launch-argument codec of `Utils`

`Utils.cpp` is not under `src/`, and the spec describes the codec only by what it must do.  The
schema below is one that meets that description: the id with every `%` and `;` preceded by `%`,
then one `;`, then the user-info as it is. -/

/-- Modelled from the spec: the escaping of the id inside `Utils::formatLaunchArgs`, which is
not under `src/` ("Encodes (id, user-info) into one string"): a `%` is put before every `%`
and every `;` of the id, so that the first bare `;` of the encoded string ends the id. -/
def escapeID : List Char → List Char
  | [] => []
  | c :: cs => if c = '%' ∨ c = ';' then '%' :: c :: escapeID cs else c :: escapeID cs

/-- Modelled from the spec: the function `Utils::formatLaunchArgs(id, userInfo)`, which is not
under `src/` ("Encodes (id, user-info) into one string safely embeddable as an XML attribute
value", "its schema is owned by this component (identifier + opaque user-info)"): the escaped
id, a `;`, the user-info. -/
def formatLaunchArgs (notificationID userInfo : String) : String :=
  String.mk (escapeID notificationID.data ++ ';' :: userInfo.data)

/-- Modelled from the spec: the scan of `Utils::parseNotificationID`, which is not under
`src/`: the characters before the first bare `;`, each `%` dropped and the character after it
kept.  The flag says that the previous character was such a `%`. -/
def scanID : Bool → List Char → List Char
  | _, [] => []
  | true, c :: cs => c :: scanID false cs
  | false, c :: cs =>
    if c = '%' then scanID true cs
    else if c = ';' then []
    else c :: scanID false cs

/-- Modelled from the spec: the scan of `Utils::parseUserInfo`, which is not under `src/`:
the characters after the first bare `;` (none when there is no bare `;`).  The flag says that
the previous character was an escaping `%`. -/
def scanUserInfo : Bool → List Char → List Char
  | _, [] => []
  | true, _ :: cs => scanUserInfo false cs
  | false, c :: cs =>
    if c = '%' then scanUserInfo true cs
    else if c = ';' then cs
    else scanUserInfo false cs

/-- Modelled from the spec: the function `Utils::parseNotificationID(launchArgs)`, which is not
under `src/` ("decodes it back into the two original fields"): the id field. -/
def parseNotificationID (launchArgs : String) : String :=
  String.mk (scanID false launchArgs.data)

/-- Modelled from the spec: the function `Utils::parseUserInfo(launchArgs)`, which is not under
`src/` ("decodes it back into the two original fields, including when user-info is
empty/absent"): the user-info field. -/
def parseUserInfo (launchArgs : String) : String :=
  String.mk (scanUserInfo false launchArgs.data)

/-- The declarations of `Utils.h` with the codec modelled above and a given group name. -/
def utilsModel (groupName : String) : Utils :=
  { formatLaunchArgs := formatLaunchArgs,
    parseNotificationID := parseNotificationID,
    parseUserInfo := parseUserInfo,
    DN_GROUP_NAME := groupName }

/-! ## Concrete inputs used to exercise the theorems -/

/-- An OS on which every call succeeds; it stores the handle `1` for a pointer and the given
value for the notification setting. -/
def osWithSetting (setting : NotificationSetting) : OS :=
  { reply := fun _ c =>
      match c with
      | OSCall.get_Setting => Reply.mk 0 (some setting)
      | _ => Reply.mk 0 (some 1),
    commandLine := "app.exe" }

/-- An OS on which every call succeeds and notifications are enabled. -/
def osAllOk : OS := osWithSetting NotificationSetting_Enabled

/-- An OS on which only the removal from the notification history fails (with `E_FAIL`). -/
def osRemoveFails : OS :=
  { reply := fun _ c =>
      match c with
      | OSCall.RemoveGroupedTagWithId _ _ _ => Reply.mk (-2147467259) none
      | _ => Reply.mk 0 (some 1),
    commandLine := "app.exe" }

/-- An OS on which every call fails with `E_FAIL` and stores nothing. -/
def osAllFail : OS :=
  { reply := fun _ _ => Reply.mk (-2147467259) none, commandLine := "app.exe" }

/-- A codec for the examples: the launch string is `id`, a semicolon, `userInfo`. -/
def utilsExample : Utils :=
  { formatLaunchArgs := fun id userInfo => id ++ ";" ++ userInfo,
    parseNotificationID := fun s => String.mk (s.data.takeWhile (fun c => c != ';')),
    parseUserInfo := fun s => String.mk ((s.data.dropWhile (fun c => c != ';')).drop 1),
    DN_GROUP_NAME := "group" }

/-- A toast whose document carries the given launch attribute and no other attribute. -/
def toastWithLaunch (launchArgs : String) : IToastNotification :=
  { get_Content := some { get_DocumentElement :=
      { GetAttribute := fun name => if name = "launch" then launchArgs else "" } } }

/-- A toast without XML content. -/
def toastNoContent : IToastNotification := { get_Content := none }

/-- A toast whose document has no attribute at all. -/
def toastNoLaunch : IToastNotification :=
  { get_Content := some { get_DocumentElement := { GetAttribute := fun _ => "" } } }

/-- A manager that tracks nothing yet. -/
def managerEmpty : DesktopNotificationsManager :=
  { m_toastActivatorClsid := "clsid", m_appID := "app", m_desktopNotifications := [],
    m_callback := [], world := World.mk [] [] }

/-- A manager that tracks the ids `a`, `b`, `a`, `c`, in this order. -/
def managerFour : DesktopNotificationsManager :=
  { managerEmpty with
    m_desktopNotifications :=
      [DesktopNotification.new "a" "app" "t1" "b1" "",
       DesktopNotification.new "b" "app" "t2" "b2" "",
       DesktopNotification.new "a" "app" "t3" "b3" "",
       DesktopNotification.new "c" "app" "t4" "b4" ""] }

/-! ## Lemmas on `closeToast` -/

/-- The method `closeNotification` touches nothing but the effects. -/
theorem closeNotification_frame (os : OS) (U : Utils) (m : DesktopNotificationsManager)
    (d : DesktopNotification) :
    (closeNotification os U m d).2.m_desktopNotifications = m.m_desktopNotifications ∧
    (closeNotification os U m d).2.m_callback = m.m_callback ∧
    (closeNotification os U m d).2.m_appID = m.m_appID := by
  unfold closeNotification
  cases hh : getHistory os m.world with
  | mk history w =>
    cases history with
    | none => simp
    | some h =>
      simp only []
      split <;> simp

/-- The loop finds nothing in a list that has no entry with the id. -/
theorem closeToastLoop_not_found (os : OS) (U : Utils) (m : DesktopNotificationsManager)
    (id : String) (rest : List DesktopNotification) (i : Nat)
    (h : ∀ n ∈ rest, n.getID ≠ id) : closeToastLoop os U m id rest i = (false, m) := by
  induction rest generalizing i with
  | nil => rfl
  | cons n rest ih =>
    have hn : n.getID ≠ id := h n (List.mem_cons_self _ _)
    simp only [closeToastLoop, hn, if_false]
    exact ih (i + 1) (fun x hx => h x (List.mem_cons_of_mem _ hx))

/-- The loop stops at the first entry with the id, erases the slot the iterator is at, and
closes that notification. -/
theorem closeToastLoop_found (os : OS) (U : Utils) (m : DesktopNotificationsManager)
    (id : String) (mid : List DesktopNotification) (n : DesktopNotification)
    (post : List DesktopNotification) (i : Nat)
    (hmid : ∀ x ∈ mid, x.getID ≠ id) (hn : n.getID = id) :
    closeToastLoop os U m id (mid ++ n :: post) i =
      closeNotification os U
        { m with m_desktopNotifications := m.m_desktopNotifications.eraseIdx (i + mid.length) }
        n := by
  induction mid generalizing i with
  | nil => simp [closeToastLoop, hn]
  | cons x mid ih =>
    have hx : x.getID ≠ id := hmid x (List.mem_cons_self _ _)
    have step : closeToastLoop os U m id (x :: (mid ++ n :: post)) i
        = closeToastLoop os U m id (mid ++ n :: post) (i + 1) := by
      simp only [closeToastLoop, hx, if_false]
    rw [List.cons_append, step, ih (i + 1) (fun y hy => hmid y (List.mem_cons_of_mem _ hy))]
    simp [Nat.add_assoc, Nat.add_comm 1]

/-- A list with an entry of the given id splits at the first such entry. -/
theorem exists_first_with_id (id : String) (l : List DesktopNotification)
    (h : ∃ n ∈ l, n.getID = id) :
    ∃ pre n post, l = pre ++ n :: post ∧ (∀ x ∈ pre, x.getID ≠ id) ∧ n.getID = id := by
  induction l with
  | nil => simp at h
  | cons a l ih =>
    by_cases ha : a.getID = id
    · exact ⟨[], a, l, rfl, by simp, ha⟩
    · have h2 : ∃ n ∈ l, n.getID = id := by
        obtain ⟨n, hn, hid⟩ := h
        rcases List.mem_cons.mp hn with rfl | hn
        · exact absurd hid ha
        · exact ⟨n, hn, hid⟩
      obtain ⟨pre, n, post, hl, hpre, hn⟩ := ih h2
      refine ⟨a :: pre, n, post, by simp [hl], ?_, hn⟩
      intro x hx
      rcases List.mem_cons.mp hx with rfl | hx
      · exact ha
      · exact hpre x hx

/-- Erasing the slot right after `pre` drops the entry that stands there. -/
theorem eraseIdx_first_match (pre : List DesktopNotification) (n : DesktopNotification)
    (post : List DesktopNotification) :
    (pre ++ n :: post).eraseIdx pre.length = pre ++ post := by
  induction pre with
  | nil => rfl
  | cons a pre ih => simp [List.eraseIdx, ih]

/-! ## Lemmas on decoding a toast -/

/-- Nothing is cut from the empty string. -/
theorem c_str_empty : c_str "" = "" := by
  decide

/-- A string without NUL is read whole. -/
theorem c_str_of_no_nul (s : String) (h : Char.ofNat 0 ∉ s.data) : c_str s = s := by
  have hl : s.data.takeWhile (fun c => c != Char.ofNat 0) = s.data := by
    rw [List.takeWhile_eq_self_iff]
    intro x hx
    have hne : x ≠ Char.ofNat 0 := fun heq => h (heq ▸ hx)
    simpa using hne
  unfold c_str
  rw [hl]

/-- The third argument of the callback, spelled out: `undefined` for the empty user-info,
otherwise the parse of the user-info up to its first NUL. -/
theorem userInfoObject_eq (userInfo : String) :
    userInfoObject userInfo =
      if userInfo = "" then JSValue.undefined else JSValue.JSONParse (c_str userInfo) := by
  unfold userInfoObject
  by_cases h : userInfo = "" <;> simp [h]

/-- The launch arguments read from a toast do not depend on the effects so far. -/
theorem getLaunchArgsFromToast_value (toast : IToastNotification) (w w2 : World) :
    (getLaunchArgsFromToast toast w).1 = (getLaunchArgsFromToast toast w2).1 := by
  unfold getLaunchArgsFromToast
  cases toast.get_Content with
  | none => rfl
  | some xmlDoc =>
    by_cases h2 : xmlDoc.get_DocumentElement.GetAttribute kLaunchAttribute = "" <;>
      simp [h2, DN_LOG_ERROR]

/-- The id decoded from a toast does not depend on the effects so far. -/
theorem getNotificationIDFromToast_value (U : Utils) (toast : IToastNotification)
    (w w2 : World) :
    (getNotificationIDFromToast U toast w).1 = (getNotificationIDFromToast U toast w2).1 := by
  have h := getLaunchArgsFromToast_value toast w w2
  unfold getNotificationIDFromToast
  cases h1 : getLaunchArgsFromToast toast w with
  | mk s1 v1 =>
    cases h2 : getLaunchArgsFromToast toast w2 with
    | mk s2 v2 =>
      rw [h1, h2] at h
      simp only at h
      subst h
      by_cases hs : s1 = "" <;> simp [hs]

/-- The user-info decoded from a toast does not depend on the effects so far. -/
theorem getUserInfoFromToast_value (U : Utils) (toast : IToastNotification) (w w2 : World) :
    (getUserInfoFromToast U toast w).1 = (getUserInfoFromToast U toast w2).1 := by
  have h := getLaunchArgsFromToast_value toast w w2
  unfold getUserInfoFromToast
  cases h1 : getLaunchArgsFromToast toast w with
  | mk s1 v1 =>
    cases h2 : getLaunchArgsFromToast toast w2 with
    | mk s2 v2 =>
      rw [h1, h2] at h
      simp only at h
      subst h
      by_cases hs : s1 = "" <;> simp [hs]

/-- Reading the launch arguments makes no OS call. -/
theorem getLaunchArgsFromToast_trace (toast : IToastNotification) (w : World) :
    (getLaunchArgsFromToast toast w).2.trace = w.trace := by
  unfold getLaunchArgsFromToast
  cases toast.get_Content with
  | none => rfl
  | some xmlDoc =>
    by_cases h2 : xmlDoc.get_DocumentElement.GetAttribute kLaunchAttribute = "" <;>
      simp [h2, DN_LOG_ERROR]

/-- A toast without XML content decodes to the empty id. -/
theorem getNotificationIDFromToast_no_content (U : Utils) (toast : IToastNotification)
    (w : World) (h : toast.get_Content = none) :
    (getNotificationIDFromToast U toast w).1 = "" := by
  simp [getNotificationIDFromToast, getLaunchArgsFromToast, h]

/-- A toast without launch attribute decodes to the empty id. -/
theorem getNotificationIDFromToast_no_launch (U : Utils) (toast : IToastNotification)
    (w : World) (xmlDoc : IXmlDocument) (h : toast.get_Content = some xmlDoc)
    (hl : xmlDoc.get_DocumentElement.GetAttribute kLaunchAttribute = "") :
    (getNotificationIDFromToast U toast w).1 = "" := by
  simp [getNotificationIDFromToast, getLaunchArgsFromToast, h, hl]

/-- A toast whose launch attribute is `s`, not empty when read up to its first NUL, decodes to
what the codec parses from that reading of `s`. -/
theorem decode_of_launch (U : Utils) (toast : IToastNotification) (w : World)
    (xmlDoc : IXmlDocument) (s : String) (h : toast.get_Content = some xmlDoc)
    (hl : xmlDoc.get_DocumentElement.GetAttribute kLaunchAttribute = s) (hs : c_str s ≠ "") :
    (getNotificationIDFromToast U toast w).1 = U.parseNotificationID (c_str s) ∧
    (getUserInfoFromToast U toast w).1 = U.parseUserInfo (c_str s) := by
  have hne : s ≠ "" := by
    intro he
    rw [he] at hs
    exact hs c_str_empty
  simp [getNotificationIDFromToast, getUserInfoFromToast, getLaunchArgsFromToast, h, hl, hs, hne]

/-- What the dismissal sink hands to the callback, as a function of the decoded id, the
decoded user-info and the answer of `get_Reason`. -/
theorem dismissed_callback (U : Utils) (m : DesktopNotificationsManager)
    (sender : IToastNotification) (e : IToastDismissedEventArgs) :
    (DesktopToastDismissedEventHandler.Invoke U m sender e).2.m_callback =
      m.m_callback ++
        (if (getNotificationIDFromToast U sender m.world).1 = "" then []
         else if SUCCEEDED e.get_Reason.1 = true then
           (if e.get_Reason.2 = ToastDismissalReason_ApplicationHidden then
              [JSCall.mk "hidden" (getNotificationIDFromToast U sender m.world).1
                (userInfoObject (getUserInfoFromToast U sender m.world).1)]
            else if e.get_Reason.2 = ToastDismissalReason_UserCanceled then
              [JSCall.mk "dismissed" (getNotificationIDFromToast U sender m.world).1
                (userInfoObject (getUserInfoFromToast U sender m.world).1)]
            else if e.get_Reason.2 = ToastDismissalReason_TimedOut then
              [JSCall.mk "timedout" (getNotificationIDFromToast U sender m.world).1
                (userInfoObject (getUserInfoFromToast U sender m.world).1)]
            else [])
         else []) := by
  unfold DesktopToastDismissedEventHandler.Invoke
  cases h1 : getNotificationIDFromToast U sender m.world with
  | mk id w1 =>
    have hui := getUserInfoFromToast_value U sender w1 m.world
    cases h2 : getUserInfoFromToast U sender w1 with
    | mk ui w2 =>
      rw [h2] at hui
      simp only at hui
      subst hui
      cases h3 : e.get_Reason with
      | mk hr tdr =>
        simp only [h2]
        by_cases hid : id = ""
        · simp [hid]
        · simp only [hid, if_false]
          by_cases hs : SUCCEEDED hr = true
          · simp only [hs, if_true]
            split_ifs <;> simp [invokeJSCallback]
          · simp [hs]

/-- What the failure sink hands to the callback. -/
theorem failed_callback (U : Utils) (m : DesktopNotificationsManager)
    (sender : IToastNotification) (e : IToastFailedEventArgs) :
    (DesktopToastFailedEventHandler.Invoke U m sender e).2.m_callback =
      m.m_callback ++
        (if (getNotificationIDFromToast U sender m.world).1 = "" then []
         else [JSCall.mk "error" (getNotificationIDFromToast U sender m.world).1
                (userInfoObject (getUserInfoFromToast U sender m.world).1)]) := by
  unfold DesktopToastFailedEventHandler.Invoke
  cases h1 : getNotificationIDFromToast U sender m.world with
  | mk id w1 =>
    have hui := getUserInfoFromToast_value U sender w1 m.world
    cases h2 : getUserInfoFromToast U sender w1 with
    | mk ui w2 =>
      rw [h2] at hui
      simp only at hui
      subst hui
      simp only [h2]
      by_cases hid : id = ""
      · simp [hid]
      · simp [hid, invokeJSCallback]

/-- What the activation sink hands to the callback. -/
theorem activated_callback (U : Utils) (m : DesktopNotificationsManager)
    (sender : IToastNotification) (args : IInspectable) :
    (DesktopToastActivatedEventHandler.Invoke U m sender args).2.m_callback =
      m.m_callback ++
        (if args.QueryInterface_IToastActivatedEventArgs = none then []
         else [JSCall.mk "click" (getNotificationIDFromToast U sender m.world).1
                (userInfoObject (getUserInfoFromToast U sender m.world).1)]) := by
  unfold DesktopToastActivatedEventHandler.Invoke
  cases hq : args.QueryInterface_IToastActivatedEventArgs with
  | none => simp
  | some p =>
    cases h1 : getNotificationIDFromToast U sender m.world with
    | mk id w1 =>
      have hui := getUserInfoFromToast_value U sender w1 m.world
      cases h2 : getUserInfoFromToast U sender w1 with
      | mk ui w2 =>
        rw [h2] at hui
        simp only at hui
        subst hui
        simp [h2, invokeJSCallback]

/-! ## Lemmas on `createToast` -/

/-- The code `startListeningEvents` returns does not make `DN_RETURN_ON_ERROR` return. -/
theorem DN_RETURN_ON_ERROR_startListeningEvents :
    DN_RETURN_ON_ERROR startListeningEvents = false := by
  decide

/-- Both branches of a conditional keep the strings, so the conditional does. -/
theorem keepsStrings_ite (d : DesktopNotification) (c : Prop) [Decidable c]
    (a b : Option HRESULT × DesktopNotification × World)
    (ha : keepsStrings d a.2.1) (hb : keepsStrings d b.2.1) :
    keepsStrings d (if c then a else b).2.1 := by
  by_cases h : c <;> simp [h, ha, hb]

/-- The first part of `createToast` leaves the five strings of the notification as they are. -/
theorem createToastSetup_strings (os : OS) (U : Utils) (d : DesktopNotification) (w : World) :
    keepsStrings d (createToastSetup os U d w).2.1 := by
  unfold createToastSetup
  simp only []
  repeat' apply keepsStrings_ite
  all_goals exact ⟨rfl, rfl, rfl, rfl, rfl⟩

/-- What `createToast` does once its first part has fallen through to the permission query:
it asks for the setting, logs, and shows the toast. -/
theorem createToast_after_setup (os : OS) (U : Utils) (d : DesktopNotification) (w : World)
    (d1 : DesktopNotification) (w1 : World)
    (hsetup : createToastSetup os U d w = (none, d1, w1)) :
    createToast os U d w =
      ((os.reply (w1.trace ++ [OSCall.get_Setting]) OSCall.Show).hr, d1,
        { trace := w1.trace ++ [OSCall.get_Setting, OSCall.Show],
          log := (w1.log ++
            (if DN_CHECK_RESULT (os.reply w1.trace OSCall.get_Setting).hr = true then []
             else ["Failed to retreive NotificationSettings ensure your appId is registered"])) ++
            (if (os.reply w1.trace OSCall.get_Setting).out.getD NotificationSetting_Enabled
                  = NotificationSetting_DisabledForApplication then
               [disabledMessage os "DisabledForApplication"]
             else if (os.reply w1.trace OSCall.get_Setting).out.getD NotificationSetting_Enabled
                  = NotificationSetting_DisabledForUser then
               [disabledMessage os "DisabledForUser"]
             else if (os.reply w1.trace OSCall.get_Setting).out.getD NotificationSetting_Enabled
                  = NotificationSetting_DisabledByGroupPolicy then
               [disabledMessage os "DisabledByGroupPolicy"]
             else if (os.reply w1.trace OSCall.get_Setting).out.getD NotificationSetting_Enabled
                  = NotificationSetting_DisabledByManifest then
               [disabledMessage os "DisabledByManifest"]
             else []) }) := by
  unfold createToast
  rw [hsetup]
  generalize hq : os.reply w1.trace OSCall.get_Setting = q
  simp only [World.call, hq, DN_RETURN_ON_ERROR_startListeningEvents]
  generalize q.out.getD NotificationSetting_Enabled = setting
  have e0 : ("" : String).isEmpty = true := by decide
  have e1 : ("DisabledForApplication" : String).isEmpty = false := by decide
  have e2 : ("DisabledForUser" : String).isEmpty = false := by decide
  have e3 : ("DisabledByGroupPolicy" : String).isEmpty = false := by decide
  have e4 : ("DisabledByManifest" : String).isEmpty = false := by decide
  by_cases h0 : setting = NotificationSetting_Enabled
  · subst h0
    cases hc : DN_CHECK_RESULT q.hr <;>
      simp [hc, DN_LOG_ERROR, e0, e1, e2, e3, e4, NotificationSetting_Enabled,
        NotificationSetting_DisabledForApplication, NotificationSetting_DisabledForUser,
        NotificationSetting_DisabledByGroupPolicy, NotificationSetting_DisabledByManifest]
  by_cases h1 : setting = NotificationSetting_DisabledForApplication
  · subst h1
    cases hc : DN_CHECK_RESULT q.hr <;>
      simp [hc, DN_LOG_ERROR, e0, e1, e2, e3, e4, NotificationSetting_Enabled,
        NotificationSetting_DisabledForApplication, NotificationSetting_DisabledForUser,
        NotificationSetting_DisabledByGroupPolicy, NotificationSetting_DisabledByManifest]
  by_cases h2 : setting = NotificationSetting_DisabledForUser
  · subst h2
    cases hc : DN_CHECK_RESULT q.hr <;>
      simp [hc, DN_LOG_ERROR, e0, e1, e2, e3, e4, NotificationSetting_Enabled,
        NotificationSetting_DisabledForApplication, NotificationSetting_DisabledForUser,
        NotificationSetting_DisabledByGroupPolicy, NotificationSetting_DisabledByManifest]
  by_cases h3 : setting = NotificationSetting_DisabledByGroupPolicy
  · subst h3
    cases hc : DN_CHECK_RESULT q.hr <;>
      simp [hc, DN_LOG_ERROR, e0, e1, e2, e3, e4, NotificationSetting_Enabled,
        NotificationSetting_DisabledForApplication, NotificationSetting_DisabledForUser,
        NotificationSetting_DisabledByGroupPolicy, NotificationSetting_DisabledByManifest]
  by_cases h4 : setting = NotificationSetting_DisabledByManifest
  · subst h4
    cases hc : DN_CHECK_RESULT q.hr <;>
      simp [hc, DN_LOG_ERROR, e0, e1, e2, e3, e4, NotificationSetting_Enabled,
        NotificationSetting_DisabledForApplication, NotificationSetting_DisabledForUser,
        NotificationSetting_DisabledByGroupPolicy, NotificationSetting_DisabledByManifest]
  cases hc : DN_CHECK_RESULT q.hr <;> simp [hc, DN_LOG_ERROR, e0, h0, h1, h2, h3, h4]

/-- The method `createToast` leaves the five strings of the notification as they are. -/
theorem createToast_strings (os : OS) (U : Utils) (d : DesktopNotification) (w : World) :
    keepsStrings d (createToast os U d w).2.1 := by
  have hs := createToastSetup_strings os U d w
  rcases hsetup : createToastSetup os U d w with ⟨ret, d1, w1⟩
  rw [hsetup] at hs
  cases ret with
  | some hr =>
    unfold createToast
    rw [hsetup]
    exact hs
  | none =>
    rw [createToast_after_setup os U d w d1 w1 hsetup]
    exact hs

/-! ## Claims -/

/-- C1: for every registry and every id that no tracked notification has, `closeToast id`
returns false, leaves the tracked notifications as they were (same entries, same order) and
makes no OS call at all, so none to the notification history; in fact the whole manager state
is unchanged. -/
theorem closeToast_unknown_id (os : OS) (U : Utils) (m : DesktopNotificationsManager)
    (id : String) (h : ∀ n ∈ m.m_desktopNotifications, n.getID ≠ id) :
    (closeToast os U m id).1 = false ∧
    (closeToast os U m id).2.m_desktopNotifications = m.m_desktopNotifications ∧
    (closeToast os U m id).2.world.trace = m.world.trace ∧
    (closeToast os U m id).2 = m := by
  have hr : closeToast os U m id = (false, m) :=
    closeToastLoop_not_found os U m id m.m_desktopNotifications 0 h
  simp [hr]

/-- Witness of C1: the id `z` on the registry `a`, `b`, `a`, `c`. -/
theorem closeToast_unknown_id_witness :
    (closeToast osAllOk utilsExample managerFour "z").1 = false ∧
    (closeToast osAllOk utilsExample managerFour "z").2.m_desktopNotifications
      = managerFour.m_desktopNotifications ∧
    (closeToast osAllOk utilsExample managerFour "z").2.world.trace = managerFour.world.trace ∧
    (closeToast osAllOk utilsExample managerFour "z").2 = managerFour :=
  closeToast_unknown_id osAllOk utilsExample managerFour "z" (by decide)

/-- C2: for every registry and every id carried by at least one tracked notification,
`closeToast id` removes exactly one entry, the first one in registry order whose id is `id`:
the registry was `pre ++ n :: post` with no entry of `pre` having the id and `n` having it, and
it becomes `pre ++ post`, so every other entry, later entries with the same id included, stays
in its original relative order, and the length decreases by exactly one. -/
theorem closeToast_removes_first_match (os : OS) (U : Utils) (m : DesktopNotificationsManager)
    (id : String) (h : ∃ n ∈ m.m_desktopNotifications, n.getID = id) :
    ∃ pre n post,
      m.m_desktopNotifications = pre ++ n :: post ∧
      (∀ x ∈ pre, x.getID ≠ id) ∧ n.getID = id ∧
      (closeToast os U m id).2.m_desktopNotifications = pre ++ post ∧
      (closeToast os U m id).2.m_desktopNotifications.length + 1
        = m.m_desktopNotifications.length := by
  obtain ⟨pre, n, post, hl, hpre, hn⟩ := exists_first_with_id id m.m_desktopNotifications h
  have hrun : closeToast os U m id =
      closeNotification os U { m with m_desktopNotifications := pre ++ post } n := by
    unfold closeToast
    rw [hl, closeToastLoop_found os U m id pre n post 0 hpre hn, hl]
    simp [eraseIdx_first_match]
  refine ⟨pre, n, post, hl, hpre, hn, ?_, ?_⟩
  · rw [hrun]
    exact (closeNotification_frame os U _ n).1
  · rw [hrun, (closeNotification_frame os U _ n).1, hl]
    simp
    omega

/-- Witness of C2: closing `a` on the registry `a`, `b`, `a`, `c`. -/
theorem closeToast_removes_first_match_witness :
    ∃ pre n post,
      managerFour.m_desktopNotifications = pre ++ n :: post ∧
      (∀ x ∈ pre, x.getID ≠ "a") ∧ n.getID = "a" ∧
      (closeToast osAllOk utilsExample managerFour "a").2.m_desktopNotifications = pre ++ post ∧
      (closeToast osAllOk utilsExample managerFour "a").2.m_desktopNotifications.length + 1
        = managerFour.m_desktopNotifications.length :=
  closeToast_removes_first_match osAllOk utilsExample managerFour "a"
    ⟨DesktopNotification.new "a" "app" "t1" "b1" "", by decide, by decide⟩

/-- C3: for a dismissal event whose notification id decodes to a non-empty string `id` (and
whose user-info decodes to `userInfo`): when the reason query succeeds, the dismissal sink hands
the callback exactly one call, named `hidden` for `ApplicationHidden`, `dismissed` for
`UserCanceled`, `timedout` for `TimedOut`, with `id` and, as third argument, `undefined` when
the user-info is empty and otherwise the parse of the user-info (read up to its first NUL, so
whole when it holds none); for any other reason value, or when the reason query fails, it hands
over no call.  For every dismissal event whatsoever the sink hands over at most one call and
its name is one of these three, which are pairwise distinct. -/
theorem dismissed_reason_mapping (U : Utils) (m : DesktopNotificationsManager)
    (sender : IToastNotification) (e : IToastDismissedEventArgs) (id userInfo : String)
    (hid : (getNotificationIDFromToast U sender m.world).1 = id)
    (hui : (getUserInfoFromToast U sender m.world).1 = userInfo) :
    (id ≠ "" → SUCCEEDED e.get_Reason.1 = true →
      e.get_Reason.2 = ToastDismissalReason_ApplicationHidden →
      (DesktopToastDismissedEventHandler.Invoke U m sender e).2.m_callback
        = m.m_callback ++ [JSCall.mk "hidden" id
            (if userInfo = "" then JSValue.undefined
             else JSValue.JSONParse (c_str userInfo))]) ∧
    (id ≠ "" → SUCCEEDED e.get_Reason.1 = true →
      e.get_Reason.2 = ToastDismissalReason_UserCanceled →
      (DesktopToastDismissedEventHandler.Invoke U m sender e).2.m_callback
        = m.m_callback ++ [JSCall.mk "dismissed" id
            (if userInfo = "" then JSValue.undefined
             else JSValue.JSONParse (c_str userInfo))]) ∧
    (id ≠ "" → SUCCEEDED e.get_Reason.1 = true →
      e.get_Reason.2 = ToastDismissalReason_TimedOut →
      (DesktopToastDismissedEventHandler.Invoke U m sender e).2.m_callback
        = m.m_callback ++ [JSCall.mk "timedout" id
            (if userInfo = "" then JSValue.undefined
             else JSValue.JSONParse (c_str userInfo))]) ∧
    (id ≠ "" → SUCCEEDED e.get_Reason.1 = true →
      e.get_Reason.2 ≠ ToastDismissalReason_ApplicationHidden →
      e.get_Reason.2 ≠ ToastDismissalReason_UserCanceled →
      e.get_Reason.2 ≠ ToastDismissalReason_TimedOut →
      (DesktopToastDismissedEventHandler.Invoke U m sender e).2.m_callback = m.m_callback) ∧
    (id ≠ "" → SUCCEEDED e.get_Reason.1 = false →
      (DesktopToastDismissedEventHandler.Invoke U m sender e).2.m_callback = m.m_callback) ∧
    (∃ new : List JSCall,
      (DesktopToastDismissedEventHandler.Invoke U m sender e).2.m_callback = m.m_callback ++ new ∧
      new.length ≤ 1 ∧
      ∀ c ∈ new, c.eventName = "hidden" ∨ c.eventName = "dismissed" ∨ c.eventName = "timedout") ∧
    ("hidden" ≠ "dismissed" ∧ "hidden" ≠ "timedout" ∧ "dismissed" ≠ "timedout") ∧
    (Char.ofNat 0 ∉ userInfo.data → c_str userInfo = userInfo) := by
  have hrun := dismissed_callback U m sender e
  rw [hid, hui, userInfoObject_eq] at hrun
  refine ⟨?_, ?_, ?_, ?_, ?_, ?_, by decide, c_str_of_no_nul userInfo⟩
  · intro h1 h2 h3
    rw [hrun]
    simp [h1, h2, h3]
  · intro h1 h2 h3
    rw [hrun]
    simp [h1, h2, h3, ToastDismissalReason_UserCanceled, ToastDismissalReason_ApplicationHidden]
  · intro h1 h2 h3
    rw [hrun]
    simp [h1, h2, h3, ToastDismissalReason_UserCanceled, ToastDismissalReason_ApplicationHidden,
      ToastDismissalReason_TimedOut]
  · intro h1 h2 h3 h4 h5
    rw [hrun]
    simp [h1, h2, h3, h4, h5]
  · intro h1 h2
    rw [hrun]
    simp [h1, h2]
  · rw [hrun]
    split_ifs
    all_goals first
      | exact ⟨[], rfl, by simp, by simp⟩
      | exact ⟨_, rfl, by simp, by simp⟩

/-- Witness of C3: a toast carrying the launch string of id `n1` with user-info `[1]` is
dismissed with reason `ApplicationHidden`; the callback gets the one call `hidden` with `n1`
and the parse of `[1]`. -/
theorem dismissed_reason_mapping_witness :
    (DesktopToastDismissedEventHandler.Invoke utilsExample managerEmpty
        (toastWithLaunch "n1;[1]")
        (IToastDismissedEventArgs.mk (S_OK, ToastDismissalReason_ApplicationHidden))).2.m_callback
      = [JSCall.mk "hidden" "n1" (JSValue.JSONParse "[1]")] :=
  ((dismissed_reason_mapping utilsExample managerEmpty (toastWithLaunch "n1;[1]")
      (IToastDismissedEventArgs.mk (S_OK, ToastDismissalReason_ApplicationHidden)) "n1" "[1]"
      (by decide) (by decide)).1 (by decide) (by decide) (by decide)).trans (by decide)

/-- C4: `getCurrentPermission` always returns one of `granted`, `denied`, `default`; it returns
`default` whenever creating the notifier or reading its setting fails; when both succeed it
returns `granted` if and only if the setting is `Enabled`, and `denied` for each of the four
disabled settings.  Here `r1` is the OS answer to `CreateToastNotifierWithId`, `r2` its answer
to `get_Setting`, and `setting` the value of the variable after that call. -/
theorem getCurrentPermission_result (os : OS) (m : DesktopNotificationsManager)
    (r1 r2 : Reply) (setting : NotificationSetting)
    (h1 : os.reply m.world.trace (OSCall.CreateToastNotifierWithId m.m_appID) = r1)
    (h2 : os.reply (m.world.trace ++ [OSCall.CreateToastNotifierWithId m.m_appID])
      OSCall.get_Setting = r2)
    (hs : r2.out.getD NotificationSetting_Enabled = setting) :
    ((getCurrentPermission os m).1 = "granted" ∨ (getCurrentPermission os m).1 = "denied" ∨
      (getCurrentPermission os m).1 = "default") ∧
    (DN_CHECK_RESULT r1.hr = false → (getCurrentPermission os m).1 = "default") ∧
    (DN_CHECK_RESULT r1.hr = true → DN_CHECK_RESULT r2.hr = false →
      (getCurrentPermission os m).1 = "default") ∧
    (DN_CHECK_RESULT r1.hr = true → DN_CHECK_RESULT r2.hr = true →
      ((getCurrentPermission os m).1 = "granted" ↔ setting = NotificationSetting_Enabled) ∧
      (setting = NotificationSetting_DisabledForApplication →
        (getCurrentPermission os m).1 = "denied") ∧
      (setting = NotificationSetting_DisabledForUser →
        (getCurrentPermission os m).1 = "denied") ∧
      (setting = NotificationSetting_DisabledByGroupPolicy →
        (getCurrentPermission os m).1 = "denied") ∧
      (setting = NotificationSetting_DisabledByManifest →
        (getCurrentPermission os m).1 = "denied")) := by
  have hrun : (getCurrentPermission os m).1 =
      if DN_CHECK_RESULT r1.hr = true then
        (if DN_CHECK_RESULT r2.hr = true then
          (if setting = NotificationSetting_Enabled then "granted" else "denied")
         else "default")
      else "default" := by
    subst h1 h2 hs
    unfold getCurrentPermission World.call
    simp only []
    split_ifs <;> simp_all
  refine ⟨?_, ?_, ?_, ?_⟩
  · rw [hrun]
    split_ifs <;> simp
  · intro h
    rw [hrun]
    simp [h]
  · intro h h3
    rw [hrun]
    simp [h, h3]
  · intro h h3
    rw [hrun]
    simp only [h, h3, if_true]
    refine ⟨?_, ?_, ?_, ?_, ?_⟩
    · by_cases he : setting = NotificationSetting_Enabled <;> simp [he]
    all_goals
      intro he
      subst he
      decide

/-- Witness of C4: the setting `DisabledForUser` gives `denied`. -/
theorem getCurrentPermission_result_witness :
    (getCurrentPermission (osWithSetting NotificationSetting_DisabledForUser) managerEmpty).1
      = "denied" :=
  ((getCurrentPermission_result (osWithSetting NotificationSetting_DisabledForUser) managerEmpty
      (Reply.mk 0 (some 1)) (Reply.mk 0 (some NotificationSetting_DisabledForUser))
      NotificationSetting_DisabledForUser rfl rfl rfl).2.2.2 (by decide) (by decide)).2.2.1 rfl

/-- C5, evaluated on the code: on a toast without XML content, and on one without launch
attribute, the decoded id is the empty string; the dismissal sink and the failure sink then drop
the event (no call is handed to the callback), but the activation sink, given toast-activated
args, still hands the callback one call `click` with the empty id and `undefined`. -/
theorem activated_sink_keeps_undecodable_event (U : Utils) (m : DesktopNotificationsManager)
    (buttonReply : Int) (e : IToastDismissedEventArgs) (f : IToastFailedEventArgs) :
    (getNotificationIDFromToast U toastNoContent m.world).1 = "" ∧
    (getNotificationIDFromToast U toastNoLaunch m.world).1 = "" ∧
    (DesktopToastDismissedEventHandler.Invoke U m toastNoContent e).2.m_callback = m.m_callback ∧
    (DesktopToastDismissedEventHandler.Invoke U m toastNoLaunch e).2.m_callback = m.m_callback ∧
    (DesktopToastFailedEventHandler.Invoke U m toastNoContent f).2.m_callback = m.m_callback ∧
    (DesktopToastFailedEventHandler.Invoke U m toastNoLaunch f).2.m_callback = m.m_callback ∧
    (DesktopToastActivatedEventHandler.Invoke U m toastNoContent
        (IInspectable.mk (some buttonReply))).2.m_callback
      = m.m_callback ++ [JSCall.mk "click" "" JSValue.undefined] ∧
    (DesktopToastActivatedEventHandler.Invoke U m toastNoLaunch
        (IInspectable.mk (some buttonReply))).2.m_callback
      = m.m_callback ++ [JSCall.mk "click" "" JSValue.undefined] := by
  have hc : (getNotificationIDFromToast U toastNoContent m.world).1 = "" :=
    getNotificationIDFromToast_no_content U toastNoContent m.world rfl
  have hl : (getNotificationIDFromToast U toastNoLaunch m.world).1 = "" :=
    getNotificationIDFromToast_no_launch U toastNoLaunch m.world _ rfl rfl
  have uc : (getUserInfoFromToast U toastNoContent m.world).1 = "" := by
    simp [getUserInfoFromToast, getLaunchArgsFromToast, toastNoContent]
  have ul : (getUserInfoFromToast U toastNoLaunch m.world).1 = "" := by
    simp [getUserInfoFromToast, getLaunchArgsFromToast, toastNoLaunch]
  refine ⟨hc, hl, ?_, ?_, ?_, ?_, ?_, ?_⟩
  · rw [dismissed_callback, hc]; simp
  · rw [dismissed_callback, hl]; simp
  · rw [failed_callback, hc]; simp
  · rw [failed_callback, hl]; simp
  · rw [activated_callback, hc, uc]; simp [userInfoObject]
  · rw [activated_callback, hl, ul]; simp [userInfoObject]

/-- C7: for a failure event, if the notification id decodes to a non-empty string the failure
sink hands the callback exactly one call, `error` with the decoded id and, as third argument,
`undefined` when the decoded user-info is empty and otherwise the parse of the decoded
user-info (read up to its first NUL, so whole when it holds none); if the id decodes to the
empty string it hands over no call; in both cases it returns `S_OK`. -/
theorem failed_error (U : Utils) (m : DesktopNotificationsManager)
    (sender : IToastNotification) (e : IToastFailedEventArgs) (id userInfo : String)
    (hid : (getNotificationIDFromToast U sender m.world).1 = id)
    (hui : (getUserInfoFromToast U sender m.world).1 = userInfo) :
    (id ≠ "" →
      (DesktopToastFailedEventHandler.Invoke U m sender e).2.m_callback
        = m.m_callback ++ [JSCall.mk "error" id
            (if userInfo = "" then JSValue.undefined
             else JSValue.JSONParse (c_str userInfo))]) ∧
    (id = "" → (DesktopToastFailedEventHandler.Invoke U m sender e).2.m_callback = m.m_callback) ∧
    (DesktopToastFailedEventHandler.Invoke U m sender e).1 = S_OK ∧
    (Char.ofNat 0 ∉ userInfo.data → c_str userInfo = userInfo) := by
  have hrun := failed_callback U m sender e
  rw [hid, hui, userInfoObject_eq] at hrun
  refine ⟨?_, ?_, ?_, c_str_of_no_nul userInfo⟩
  · intro h
    rw [hrun]; simp [h]
  · intro h
    rw [hrun]; simp [h]
  · unfold DesktopToastFailedEventHandler.Invoke
    cases h1 : getNotificationIDFromToast U sender m.world with
    | mk i w1 =>
      simp only []
      split <;> rfl

/-- Witness of C7: the toast of id `n1` with user-info `[1]` fails; the callback gets the one
call `error` with `n1` and the parse of `[1]`. -/
theorem failed_error_witness :
    (DesktopToastFailedEventHandler.Invoke utilsExample managerEmpty
        (toastWithLaunch "n1;[1]") (IToastFailedEventArgs.mk (-1))).2.m_callback
      = [JSCall.mk "error" "n1" (JSValue.JSONParse "[1]")] :=
  ((failed_error utilsExample managerEmpty (toastWithLaunch "n1;[1]")
      (IToastFailedEventArgs.mk (-1)) "n1" "[1]" (by decide) (by decide)).1
    (by decide)).trans (by decide)

/-- C9: for every registry and every `(id, title, body, userInfo)`, `displayToast` appends
exactly one notification at the end of the registry, leaving the earlier entries and their order
unchanged; the appended entry is the notification constructed from the arguments as
`createToast` left it, it has the id `id` (and the given title, body and user-info), and the
returned code is exactly the result of that notification's `createToast`.  Nothing here depends
on the code, so the entry is appended also when `createToast` fails. -/
theorem displayToast_appends (os : OS) (U : Utils) (m : DesktopNotificationsManager)
    (id title body userInfo : String) :
    (displayToast os U m id title body userInfo).2.m_desktopNotifications
      = m.m_desktopNotifications ++
        [(createToast os U (DesktopNotification.new id m.m_appID title body userInfo)
            m.world).2.1] ∧
    (createToast os U (DesktopNotification.new id m.m_appID title body userInfo)
        m.world).2.1.getID = id ∧
    keepsStrings (DesktopNotification.new id m.m_appID title body userInfo)
      (createToast os U (DesktopNotification.new id m.m_appID title body userInfo) m.world).2.1 ∧
    (displayToast os U m id title body userInfo).2.m_desktopNotifications.length
      = m.m_desktopNotifications.length + 1 ∧
    (displayToast os U m id title body userInfo).1
      = (createToast os U (DesktopNotification.new id m.m_appID title body userInfo)
          m.world).1 := by
  have hk := createToast_strings os U (DesktopNotification.new id m.m_appID title body userInfo)
    m.world
  have hlist : (displayToast os U m id title body userInfo).2.m_desktopNotifications
      = m.m_desktopNotifications ++
        [(createToast os U (DesktopNotification.new id m.m_appID title body userInfo)
            m.world).2.1] := by
    simp [displayToast]
  refine ⟨hlist, hk.1, hk, ?_, ?_⟩
  · rw [hlist]; simp
  · simp [displayToast]

/-- Scanning the encoded string for the id gives the id back. -/
theorem scanID_escapeID (id userInfo : List Char) :
    scanID false (escapeID id ++ ';' :: userInfo) = id := by
  induction id with
  | nil => simp [escapeID, scanID]
  | cons c cs ih =>
    by_cases h1 : c = '%'
    · subst h1
      simp [escapeID, scanID, ih]
    · by_cases h2 : c = ';'
      · subst h2
        simp [escapeID, scanID, ih]
      · simp [escapeID, scanID, ih, h1, h2]

/-- Scanning the encoded string for the user-info gives the user-info back. -/
theorem scanUserInfo_escapeID (id userInfo : List Char) :
    scanUserInfo false (escapeID id ++ ';' :: userInfo) = userInfo := by
  induction id with
  | nil => simp [escapeID, scanUserInfo]
  | cons c cs ih =>
    by_cases h1 : c = '%'
    · subst h1
      simp [escapeID, scanUserInfo, ih]
    · by_cases h2 : c = ';'
      · subst h2
        simp [escapeID, scanUserInfo, ih]
      · simp [escapeID, scanUserInfo, ih, h1, h2]

/-- An encoded string is never empty: it holds the separator. -/
theorem formatLaunchArgs_ne_empty (id userInfo : String) : formatLaunchArgs id userInfo ≠ "" := by
  intro h
  have hd := congrArg String.data h
  simp [formatLaunchArgs] at hd

/-- Escaping the id brings in no NUL. -/
theorem escapeID_no_nul (l : List Char) (h : Char.ofNat 0 ∉ l) : Char.ofNat 0 ∉ escapeID l := by
  induction l with
  | nil => simp [escapeID]
  | cons c cs ih =>
    have hc : Char.ofNat 0 ≠ c := fun heq => h (heq ▸ List.mem_cons_self _ _)
    have hcs : Char.ofNat 0 ∉ cs := fun hm => h (List.mem_cons_of_mem _ hm)
    have hp : Char.ofNat 0 ≠ '%' := by decide
    unfold escapeID
    split_ifs <;> simp [hc, hp, ih hcs]

/-- The encoding of a NUL-free id and a NUL-free user-info is read whole through a
NUL-terminated pointer. -/
theorem c_str_formatLaunchArgs (id userInfo : String) (h1 : Char.ofNat 0 ∉ id.data)
    (h2 : Char.ofNat 0 ∉ userInfo.data) :
    c_str (formatLaunchArgs id userInfo) = formatLaunchArgs id userInfo := by
  apply c_str_of_no_nul
  have hs : Char.ofNat 0 ≠ ';' := by decide
  have he := escapeID_no_nul id.data h1
  simp [formatLaunchArgs, he, hs, h2]

/-- What is read through a NUL-terminated pointer holds no NUL. -/
theorem c_str_no_nul (s : String) : Char.ofNat 0 ∉ (c_str s).data := by
  intro hm
  have hp := List.mem_takeWhile_imp hm
  simp at hp

/-- The user-info scanned from a NUL-free string holds no NUL. -/
theorem scanUserInfo_no_nul (l : List Char) (h : Char.ofNat 0 ∉ l) (b : Bool) :
    Char.ofNat 0 ∉ scanUserInfo b l := by
  induction l generalizing b with
  | nil => cases b <;> simp [scanUserInfo]
  | cons c cs ih =>
    have hcs : Char.ofNat 0 ∉ cs := fun hm => h (List.mem_cons_of_mem _ hm)
    cases b
    · unfold scanUserInfo
      split_ifs
      · exact ih hcs true
      · exact hcs
      · exact ih hcs false
    · unfold scanUserInfo
      exact ih hcs false

/-- With the codec modelled from the spec, the user-info decoded from a toast never holds a
NUL, so the event sinks hand it to `Utils::JSONParse` whole. -/
theorem getUserInfoFromToast_model_whole (groupName : String) (toast : IToastNotification)
    (w : World) :
    c_str (getUserInfoFromToast (utilsModel groupName) toast w).1
      = (getUserInfoFromToast (utilsModel groupName) toast w).1 := by
  apply c_str_of_no_nul
  unfold getUserInfoFromToast
  rcases hl : getLaunchArgsFromToast toast w with ⟨launchArgs, w1⟩
  have hn : Char.ofNat 0 ∉ launchArgs.data := by
    have hv : (getLaunchArgsFromToast toast w).1 = launchArgs := by rw [hl]
    rw [← hv]
    unfold getLaunchArgsFromToast
    cases toast.get_Content with
    | none => simp
    | some xmlDoc =>
      by_cases h2 : xmlDoc.get_DocumentElement.GetAttribute kLaunchAttribute = ""
      · simp [h2]
      · simp only [h2, if_false]
        exact c_str_no_nul _
  by_cases he : launchArgs = ""
  · simp [he]
  · simp only [he, if_false]
    exact scanUserInfo_no_nul launchArgs.data hn false

/-- What `closeNotification` does, by the answers of the OS to the cast of the toast manager,
to `get_History` and to `RemoveGroupedTagWithId`. -/
theorem closeNotification_run (os : OS) (U : Utils) (m : DesktopNotificationsManager)
    (d : DesktopNotification) :
    closeNotification os U m d =
      if DN_CHECK_RESULT
          (os.reply m.world.trace OSCall.As_IToastNotificationManagerStatics2).hr = true then
        if (os.reply (m.world.trace ++ [OSCall.As_IToastNotificationManagerStatics2])
            OSCall.get_History).out ≠ none then
          if DN_CHECK_RESULT
              (os.reply (m.world.trace ++
                  [OSCall.As_IToastNotificationManagerStatics2, OSCall.get_History])
                (OSCall.RemoveGroupedTagWithId d.getID U.DN_GROUP_NAME m.m_appID)).hr = true then
            (true, { m with world :=
              { trace := m.world.trace ++
                  [OSCall.As_IToastNotificationManagerStatics2, OSCall.get_History,
                    OSCall.RemoveGroupedTagWithId d.getID U.DN_GROUP_NAME m.m_appID],
                log := m.world.log } })
          else
            (false, { m with world :=
              { trace := m.world.trace ++
                  [OSCall.As_IToastNotificationManagerStatics2, OSCall.get_History,
                    OSCall.RemoveGroupedTagWithId d.getID U.DN_GROUP_NAME m.m_appID],
                log := m.world.log ++ ["Notification " ++ d.getID ++ " does not exist"] } })
        else
          (false, { m with world :=
            { trace := m.world.trace ++
                [OSCall.As_IToastNotificationManagerStatics2, OSCall.get_History],
              log := m.world.log ++ ["Notification " ++ d.getID ++ " does not exist"] } })
      else
        (false, { m with world :=
          { trace := m.world.trace ++ [OSCall.As_IToastNotificationManagerStatics2],
            log := m.world.log ++ ["Notification " ++ d.getID ++ " does not exist"] } }) := by
  unfold closeNotification getHistory
  simp only [World.call, DN_LOG_ERROR]
  cases h1 : DN_CHECK_RESULT
      (os.reply m.world.trace OSCall.As_IToastNotificationManagerStatics2).hr
  · simp
  · cases h2 : (os.reply (m.world.trace ++ [OSCall.As_IToastNotificationManagerStatics2])
        OSCall.get_History).out
    · simp
    · cases h3 : DN_CHECK_RESULT
          (os.reply (m.world.trace ++
              [OSCall.As_IToastNotificationManagerStatics2, OSCall.get_History])
            (OSCall.RemoveGroupedTagWithId d.getID U.DN_GROUP_NAME m.m_appID)).hr <;>
        simp [h3]

/-- C11: for every id and every user-info string, the empty user-info included, decoding the
string produced by `formatLaunchArgs id userInfo` gives back the original pair:
`parseNotificationID` returns `id` and `parseUserInfo` returns `userInfo`.  For an id and a
user-info without NUL the same holds through the decoding functions of `DesktopNotification`,
which read the launch attribute up to its first NUL: for a toast whose launch attribute is that
string, `getNotificationIDFromToast` returns `id` and `getUserInfoFromToast` returns
`userInfo`. -/
theorem launchArgs_roundtrip (id userInfo : String) :
    parseNotificationID (formatLaunchArgs id userInfo) = id ∧
    parseUserInfo (formatLaunchArgs id userInfo) = userInfo ∧
    parseNotificationID (formatLaunchArgs id "") = id ∧
    parseUserInfo (formatLaunchArgs id "") = "" ∧
    (∀ (groupName : String) (w : World),
      Char.ofNat 0 ∉ id.data → Char.ofNat 0 ∉ userInfo.data →
      (getNotificationIDFromToast (utilsModel groupName)
        (toastWithLaunch (formatLaunchArgs id userInfo)) w).1 = id ∧
      (getUserInfoFromToast (utilsModel groupName)
        (toastWithLaunch (formatLaunchArgs id userInfo)) w).1 = userInfo) := by
  have hid : ∀ u : String, parseNotificationID (formatLaunchArgs id u) = id := by
    intro u
    simp [parseNotificationID, formatLaunchArgs, scanID_escapeID]
  have hui : ∀ u : String, parseUserInfo (formatLaunchArgs id u) = u := by
    intro u
    simp [parseUserInfo, formatLaunchArgs, scanUserInfo_escapeID]
  refine ⟨hid userInfo, hui userInfo, hid "", hui "", ?_⟩
  intro groupName w h1 h2
  have hc := c_str_formatLaunchArgs id userInfo h1 h2
  have hne : c_str (formatLaunchArgs id userInfo) ≠ "" := by
    rw [hc]
    exact formatLaunchArgs_ne_empty id userInfo
  have hd := decode_of_launch (utilsModel groupName)
    (toastWithLaunch (formatLaunchArgs id userInfo)) w _ (formatLaunchArgs id userInfo) rfl
    (by simp [kLaunchAttribute]) hne
  rw [hc] at hd
  exact ⟨hd.1.trans (hid userInfo), hd.2.trans (hui userInfo)⟩

/-- Witness of C11: the pair `n1`, `[1]` comes back from a toast that carries its encoding. -/
theorem launchArgs_roundtrip_witness :
    (getNotificationIDFromToast (utilsModel "group")
      (toastWithLaunch (formatLaunchArgs "n1" "[1]")) (World.mk [] [])).1 = "n1" ∧
    (getUserInfoFromToast (utilsModel "group")
      (toastWithLaunch (formatLaunchArgs "n1" "[1]")) (World.mk [] [])).1 = "[1]" :=
  (launchArgs_roundtrip "n1" "[1]").2.2.2.2 "group" (World.mk [] []) (by decide) (by decide)

/-- C12: for every registry and every id carried by a tracked notification, `closeToast id`
takes that notification (the first with the id) out of the registry before it asks the OS to
remove it from the history: the OS calls are those of `closeNotification`, run on the manager
whose registry has already lost the entry, and the registry is `pre ++ post` on every path.
With `r1` the answer of the OS to the cast of the toast manager, `r2` its answer to
`get_History` and `r3` its answer to `RemoveGroupedTagWithId id DN_GROUP_NAME appID`: the
history object is available when `r1` passes the check and `r2` stored a pointer; then, and
only then, the OS is asked to remove the entry (the trace ends with that call); the result is
true if and only if the history object is available and `r3` passes the check.  So when the
removal fails `closeToast` returns false, logs that the notification does not exist, and the
registry has lost the entry all the same: a false result does not mean the registry is
unchanged. -/
theorem closeToast_erases_before_removal (os : OS) (U : Utils)
    (m : DesktopNotificationsManager) (id : String) (r1 r2 r3 : Reply)
    (h : ∃ n ∈ m.m_desktopNotifications, n.getID = id)
    (h1 : os.reply m.world.trace OSCall.As_IToastNotificationManagerStatics2 = r1)
    (h2 : os.reply (m.world.trace ++ [OSCall.As_IToastNotificationManagerStatics2])
      OSCall.get_History = r2)
    (h3 : os.reply
      (m.world.trace ++ [OSCall.As_IToastNotificationManagerStatics2, OSCall.get_History])
      (OSCall.RemoveGroupedTagWithId id U.DN_GROUP_NAME m.m_appID) = r3) :
    (∃ pre n post,
      m.m_desktopNotifications = pre ++ n :: post ∧
      (∀ x ∈ pre, x.getID ≠ id) ∧ n.getID = id ∧
      closeToast os U m id
        = closeNotification os U { m with m_desktopNotifications := pre ++ post } n ∧
      (closeToast os U m id).2.m_desktopNotifications = pre ++ post) ∧
    ((closeToast os U m id).1 = true ↔
      (DN_CHECK_RESULT r1.hr = true ∧ r2.out ≠ none) ∧ DN_CHECK_RESULT r3.hr = true) ∧
    (DN_CHECK_RESULT r1.hr = true → r2.out ≠ none →
      (closeToast os U m id).2.world.trace = m.world.trace ++
        [OSCall.As_IToastNotificationManagerStatics2, OSCall.get_History,
          OSCall.RemoveGroupedTagWithId id U.DN_GROUP_NAME m.m_appID]) ∧
    (DN_CHECK_RESULT r1.hr = true → r2.out = none →
      (closeToast os U m id).2.world.trace = m.world.trace ++
        [OSCall.As_IToastNotificationManagerStatics2, OSCall.get_History]) ∧
    (DN_CHECK_RESULT r1.hr = false →
      (closeToast os U m id).2.world.trace = m.world.trace ++
        [OSCall.As_IToastNotificationManagerStatics2]) ∧
    (DN_CHECK_RESULT r1.hr = true → r2.out ≠ none → DN_CHECK_RESULT r3.hr = true →
      (closeToast os U m id).1 = true ∧
      (closeToast os U m id).2.world.log = m.world.log ∧
      (closeToast os U m id).2.m_desktopNotifications.length + 1
        = m.m_desktopNotifications.length) ∧
    (DN_CHECK_RESULT r1.hr = true → r2.out ≠ none → DN_CHECK_RESULT r3.hr = false →
      (closeToast os U m id).1 = false ∧
      (closeToast os U m id).2.world.log
        = m.world.log ++ ["Notification " ++ id ++ " does not exist"] ∧
      (closeToast os U m id).2.m_desktopNotifications.length + 1
        = m.m_desktopNotifications.length ∧
      (closeToast os U m id).2.m_desktopNotifications ≠ m.m_desktopNotifications) := by
  obtain ⟨pre, n, post, hl, hpre, hn⟩ := exists_first_with_id id m.m_desktopNotifications h
  have hrun : closeToast os U m id =
      closeNotification os U { m with m_desktopNotifications := pre ++ post } n := by
    unfold closeToast
    rw [hl, closeToastLoop_found os U m id pre n post 0 hpre hn, hl]
    simp [eraseIdx_first_match]
  have hreg : (closeToast os U m id).2.m_desktopNotifications = pre ++ post := by
    rw [hrun]
    exact (closeNotification_frame os U _ n).1
  have hlen : (closeToast os U m id).2.m_desktopNotifications.length + 1
      = m.m_desktopNotifications.length := by
    rw [hreg, hl]
    simp
    omega
  have hne : (closeToast os U m id).2.m_desktopNotifications ≠ m.m_desktopNotifications := by
    intro heq
    rw [heq] at hlen
    omega
  have hstep := closeNotification_run os U { m with m_desktopNotifications := pre ++ post } n
  simp only [hn, h1, h2, h3] at hstep
  rw [← hrun] at hstep
  refine ⟨⟨pre, n, post, hl, hpre, hn, hrun, hreg⟩, ?_, ?_, ?_, ?_, ?_, ?_⟩
  · rw [hstep]
    by_cases c1 : DN_CHECK_RESULT r1.hr = true <;> by_cases c2 : r2.out = none <;>
      by_cases c3 : DN_CHECK_RESULT r3.hr = true <;> simp [c1, c2, c3]
  · intro c1 c2
    rw [hstep]
    by_cases c3 : DN_CHECK_RESULT r3.hr = true <;> simp [c1, c2, c3]
  · intro c1 c2
    rw [hstep]
    simp [c1, c2]
  · intro c1
    rw [hstep]
    simp [c1]
  · intro c1 c2 c3
    refine ⟨?_, ?_, hlen⟩
    · rw [hstep]; simp [c1, c2, c3]
    · rw [hstep]; simp [c1, c2, c3]
  · intro c1 c2 c3
    refine ⟨?_, ?_, hlen, hne⟩
    · rw [hstep]; simp [c1, c2, c3]
    · rw [hstep]; simp [c1, c2, c3]

/-- Witness of C12: on the registry `a`, `b`, `a`, `c`, closing `a` while the OS refuses the
removal asks the OS for the removal, returns false, and the registry is no longer what it was;
when the OS accepts the removal the result is true. -/
theorem closeToast_erases_before_removal_witness :
    ((closeToast osRemoveFails utilsExample managerFour "a").1 = false ∧
     (closeToast osRemoveFails utilsExample managerFour "a").2.world.trace
       = [OSCall.As_IToastNotificationManagerStatics2, OSCall.get_History,
           OSCall.RemoveGroupedTagWithId "a" "group" "app"] ∧
     (closeToast osRemoveFails utilsExample managerFour "a").2.m_desktopNotifications
       ≠ managerFour.m_desktopNotifications) ∧
    ((closeToast osAllOk utilsExample managerFour "a").1 = true ∧
     (closeToast osAllOk utilsExample managerFour "a").2.world.trace
       = [OSCall.As_IToastNotificationManagerStatics2, OSCall.get_History,
           OSCall.RemoveGroupedTagWithId "a" "group" "app"]) := by
  have hf := closeToast_erases_before_removal osRemoveFails utilsExample managerFour "a" _ _ _
    ⟨DesktopNotification.new "a" "app" "t1" "b1" "", by decide, by decide⟩ rfl rfl rfl
  have hs := closeToast_erases_before_removal osAllOk utilsExample managerFour "a" _ _ _
    ⟨DesktopNotification.new "a" "app" "t1" "b1" "", by decide, by decide⟩ rfl rfl rfl
  have hf7 := hf.2.2.2.2.2.2 (by decide) (by decide) (by decide)
  exact ⟨⟨hf7.1, (hf.2.2.1 (by decide) (by decide)).trans (by decide), hf7.2.2.2⟩,
    ⟨(hs.2.2.2.2.2.1 (by decide) (by decide) (by decide)).1,
      (hs.2.2.1 (by decide) (by decide)).trans (by decide)⟩⟩

end DesktopNotifications
